import Mathlib

set_option maxRecDepth 4000

/-!
Shallow embedding of `src/index.ts` of the music-api Cloudflare Worker.

The worker exposes one GET endpoint that reports the currently (or most
recently) playing track, sourced from Spotify and Apple Music, and caches
the chosen result in a KV store.  Time is modelled as epoch milliseconds
(`Int`); `Date.now()` becomes an explicit `now : Int` parameter.  JavaScript
exceptions are modelled with `Except String`: a `.error` value means the
corresponding JS code threw.  KV reads and writes are modelled by explicit
input state (`Option` values read) and output write records.
-/

/--
Model of an `ApiResponse.timeStamp` string as consumed by
`new Date(s).getTime()` in the handler (src/index.ts lines 89-90):
`absent` is a falsy string (empty or undefined, short-circuited to `0` by the
ternary), `invalid` a non-empty string that does not parse (`getTime()`
returns NaN), `valid t` an ISO string denoting epoch-millisecond `t`.
Every adapter return path in the source produces a `valid` timestamp via
`new Date(n).toISOString()`.
-/
inductive TimeStr where
  | absent
  | invalid
  | valid (t : Int)
deriving DecidableEq, Repr

/--
The `ApiResponse` interface of src/index.ts lines 35-47.  Optional fields are
`Option`; a missing field is `none`.  `isPlaying` is the JS truthiness of the
stored value (the source only ever tests it or serialises it).
-/
structure ApiResponse where
  success : Bool
  isPlaying : Bool
  timeStamp : TimeStr
  source : Option String := none
  duration : Option Int := none
  title : Option String := none
  artist : Option String := none
  album : Option String := none
  albumImageUrl : Option String := none
  songUrl : Option String := none
  error : Option String := none
deriving DecidableEq, Repr

/--
Model of `snapshot.timeStamp ? new Date(snapshot.timeStamp).getTime() : 0`
(src/index.ts lines 89-90).  `none` is NaN: a truthy string that `Date`
cannot parse.
-/
def jsGetTime : TimeStr → Option Int
  | .absent => some 0
  | .invalid => none
  | .valid t => some t

/--
JS `>=` on two numbers that may be NaN (`none`): any comparison with NaN is
false.
-/
def jsGe : Option Int → Option Int → Bool
  | some a, some b => decide (a ≥ b)
  | _, _ => false

/--
JS `>` between a number and a possibly-NaN number (`none` is NaN).
-/
def jsGt (a : Int) : Option Int → Bool
  | some b => decide (a > b)
  | none => false

/--
The winner-selection block of the fetch handler, src/index.ts lines 82-92:
Spotify wins if playing, else Apple if playing, else the later timestamp with
Spotify winning on `>=`.
-/
def resolve (spotify apple : ApiResponse) : ApiResponse :=
  if spotify.isPlaying then spotify
  else if apple.isPlaying then apple
  else
    let spotifyTime := jsGetTime spotify.timeStamp
    let appleTime := jsGetTime apple.timeStamp
    if jsGe spotifyTime appleTime then spotify else apple

/--
The `expirationTtl` expression of src/index.ts line 98:
`responseData.duration ? Math.min(Math.floor(responseData.duration / 1000), 600) : 120`.
JS truthiness makes a duration of `0` (and an absent duration) take the
default `120`; `Math.floor` of a real division is integer floor division.
-/
def computeTtl : Option Int → Int
  | some d => if d = 0 then 120 else min (Int.fdiv d 1000) 600
  | none => 120

/--
Observable outcome of one invocation of the fetch handler: the JSON body
returned, the `X-Cache-Status` header, the RESULT_CACHE write (value and
`expirationTtl`) performed via `ctx.waitUntil`, whether
`RESULT_CACHE.delete` was issued, and whether `RESULT_CACHE.get` was read.
-/
structure FetchResult where
  body : ApiResponse
  cacheStatus : String
  cacheWrite : Option (ApiResponse × Int)
  cacheDeleted : Bool
  cacheRead : Bool
deriving DecidableEq, Repr

/--
The fetch handler of src/index.ts lines 51-106, after the two adapter
snapshots are available.  `noCache` is whether the query said `noCache=true`;
`cached` is the current value under the `now_playing_result` key.  On the
bypass path the cache is deleted and never read; on a hit the cached body is
returned with no adapter call; otherwise the winner is resolved, written
through when successful, and returned with a MISS header.
-/
def fetchHandler (noCache : Bool) (cached : Option ApiResponse)
    (spotify apple : ApiResponse) : FetchResult :=
  if noCache then
    let responseData := resolve spotify apple
    { body := responseData
      cacheStatus := "MISS"
      cacheWrite :=
        if responseData.success then some (responseData, computeTtl responseData.duration)
        else none
      cacheDeleted := true
      cacheRead := false }
  else
    match cached with
    | some c =>
      { body := c, cacheStatus := "HIT", cacheWrite := none
        cacheDeleted := false, cacheRead := true }
    | none =>
      let responseData := resolve spotify apple
      { body := responseData
        cacheStatus := "MISS"
        cacheWrite :=
          if responseData.success then some (responseData, computeTtl responseData.duration)
          else none
        cacheDeleted := false
        cacheRead := true }

/--
Whether an `Except` models normal completion (`.ok`) rather than a thrown JS
exception (`.error`).
-/
def exceptOk {α : Type} : Except String α → Bool
  | .ok _ => true
  | .error _ => false

/--
The whole fetch handler including the possibility that the Spotify adapter
throws: in the source `getSpotifyData` has no try/catch, so a rejection of
its promise rejects the `Promise.all` at line 72 and escapes the handler
(there is no surrounding try/catch), modelled as `.error`.  On a cache hit
the early return at line 62 fires before the adapters are invoked, so a
throwing adapter is never reached.  `getAppleMusicData` is total, so the
Apple argument is already an `ApiResponse`.
-/
def fetchTop (noCache : Bool) (cached : Option ApiResponse)
    (spotifyOutcome : Except String ApiResponse) (apple : ApiResponse) :
    Except String FetchResult :=
  match noCache, cached with
  | false, some c =>
    .ok { body := c, cacheStatus := "HIT", cacheWrite := none
          cacheDeleted := false, cacheRead := true }
  | _, _ =>
    match spotifyOutcome with
    | .error e => .error e
    | .ok spotify => .ok (fetchHandler noCache cached spotify apple)

/--
The `AppleCacheState` interface (src/index.ts lines 208-211): the last-seen
song marker stored in APPLE_STATE_CACHE.  `songId` is `Option` because JS
would store and compare an `undefined` id with `===` semantics.
-/
structure AppleCacheState where
  songId : Option String
  cachedAt : Int
deriving DecidableEq, Repr

/--
The `artwork` object of an Apple Music track; `url` is absent when the JSON
lacks the field (then `.replace` on `undefined` throws).
-/
structure AppleArtwork where
  url : Option String
deriving DecidableEq, Repr

/--
The `attributes` object of an Apple Music track as read by the source:
`durationInMillis`, `name`, `artistName`, `albumName`, `artwork.url`, `url`.
Absent fields are `none` (JS `undefined`).
-/
structure AppleAttributes where
  durationInMillis : Option Int
  name : Option String
  artistName : Option String
  albumName : Option String
  artwork : Option AppleArtwork
  url : Option String
deriving DecidableEq, Repr

/--
One element of the `data` array of the Apple recently-played response.
-/
structure AppleSong where
  id : Option String
  attributes : Option AppleAttributes
deriving DecidableEq, Repr

/--
The parsed JSON body of the Apple recently-played response; `data` is `none`
when the field is missing (then `data[0]` throws).
-/
structure AppleBody where
  data : Option (List AppleSong)
deriving DecidableEq, Repr

deriving instance DecidableEq for Except

/--
The HTTP response of the Apple recently-played fetch: its status, whether
`response.body` is non-null, and the outcome of `response.json()`
(`.error` models a JSON parse throw).
-/
structure AppleHttpResp where
  status : Int
  hasBody : Bool
  json : Except String AppleBody
deriving DecidableEq, Repr

/--
JS `String.prototype.replace` with a string pattern: replaces only the first
occurrence of `pat` in `s` by `repl`.
-/
def replaceFirst (s pat repl : String) : String :=
  match s.splitOn pat with
  | [] => s
  | [_] => s
  | x :: rest => x ++ repl ++ String.intercalate pat rest

/--
The `formatAppleSong` helper of src/index.ts lines 270-283.  Evaluating the
object literal throws (`.error`) when `attributes` is absent
(`song.attributes.durationInMillis`), or when `artwork` or `artwork.url` is
absent (`song.attributes.artwork.url.replace(...)`), in source evaluation
order.
-/
def formatAppleSong (song : AppleSong) (isLive : Bool) (timestamp : Int) :
    Except String ApiResponse :=
  match song.attributes with
  | none => .error "TypeError: cannot read durationInMillis of undefined"
  | some attrs =>
    match attrs.artwork with
    | none => .error "TypeError: cannot read url of undefined"
    | some art =>
      match art.url with
      | none => .error "TypeError: cannot read replace of undefined"
      | some u =>
        .ok { success := true
              source := some "Apple Music"
              timeStamp := .valid timestamp
              isPlaying := isLive
              duration := attrs.durationInMillis
              title := attrs.name
              artist := attrs.artistName
              album := attrs.albumName
              albumImageUrl :=
                some (replaceFirst (replaceFirst u "\x7bw\x7d" "500") "\x7bh\x7d" "500")
              songUrl := attrs.url }

/--
The body of the `try` block of `getAppleMusicData` (src/index.ts lines
220-256), given the fetch already resolved to `resp`.  Returns the JS
outcome (a returned `ApiResponse`, or `.error` for a throw that the
enclosing `catch` will handle) paired with the APPLE_STATE_CACHE write, if
any; the write at line 254 is awaited before `formatAppleSong` runs, so it
survives a later throw.  Throw points: `response.json()`, `data[0]` when
`data` is missing, `lastSong.id` when `data` is empty,
`lastSong.attributes.durationInMillis` when `attributes` is missing, and
anything `formatAppleSong` throws.
-/
def appleTryBody (now : Int) (resp : AppleHttpResp)
    (cachedState : Option AppleCacheState) :
    Except String ApiResponse × Option AppleCacheState :=
  if resp.status > 204 ∨ resp.hasBody = false then
    (.ok { success := false, isPlaying := false, timeStamp := .valid now
           error := some ("Failed to fetch from Apple Music. Status: " ++ toString resp.status) },
     none)
  else
    match resp.json with
    | .error e => (.error e, none)
    | .ok body =>
      match body.data with
      | none => (.error "TypeError: cannot index undefined", none)
      | some [] => (.error "TypeError: cannot read id of undefined", none)
      | some (lastSong :: _) =>
        match lastSong.attributes with
        | none => (.error "TypeError: cannot read durationInMillis of undefined", none)
        | some attrs =>
          let songId := lastSong.id
          let oneSongAgo : Option Int := attrs.durationInMillis.map (fun d => now - d)
          match cachedState with
          | some st =>
            if st.songId = songId then
              if jsGt st.cachedAt oneSongAgo then
                (formatAppleSong lastSong false st.cachedAt, none)
              else
                (formatAppleSong lastSong true st.cachedAt, none)
            else
              (formatAppleSong lastSong false now, some { songId := songId, cachedAt := now })
          | none =>
            (formatAppleSong lastSong false now, some { songId := songId, cachedAt := now })

/--
The `getAppleMusicData` adapter (src/index.ts lines 213-267).
`developerToken` is the outcome of `getAppleDeveloperToken` (null on
failure, modelled `none`; the token minting itself is external crypto),
`musicUserToken` is `none` when falsy, `fetchOutcome` is `.error` when the
`fetch` call itself throws (network error), and `cachedState` is the stored
last-seen-song marker.  Returns the snapshot together with the marker write
performed, if any; every throw inside the `try` is converted by the `catch`
into the failure snapshot of lines 260-265, so the adapter itself is total.
-/
def getAppleMusicData (now : Int) (developerToken musicUserToken : Option String)
    (fetchOutcome : Except String AppleHttpResp)
    (cachedState : Option AppleCacheState) :
    ApiResponse × Option AppleCacheState :=
  if developerToken = none ∨ musicUserToken = none then
    ({ success := false, isPlaying := false, timeStamp := .valid now
       error := some "Could not generate Apple Developer Token." }, none)
  else
    match fetchOutcome with
    | .error _ =>
      ({ success := false, isPlaying := false, timeStamp := .valid now
         error := some "Failed to fetch from Apple Music. Is the User Token valid?" }, none)
    | .ok resp =>
      match appleTryBody now resp cachedState with
      | (.ok r, w) => (r, w)
      | (.error _, w) =>
        ({ success := false, isPlaying := false, timeStamp := .valid now
           error := some "Failed to fetch from Apple Music. Is the User Token valid?" }, w)

/--
The `external_urls` object of a Spotify track.
-/
structure SpotifyExternalUrls where
  spotify : Option String
deriving DecidableEq, Repr

/--
The `album` object of a Spotify track: its `name` and the list of `url`
fields of its `images` array.  `images := none` models the array being
absent (then `images[0]` on `undefined` throws); an image object with no
`url` contributes `none`.
-/
structure SpotifyAlbumObj where
  name : Option String
  images : Option (List (Option String))
deriving DecidableEq, Repr

/--
The `item` object of the Spotify currently-playing response; `artists` is
the list of artist `name` fields.
-/
structure SpotifyItem where
  duration_ms : Option Int
  name : Option String
  artists : Option (List (Option String))
  album : Option SpotifyAlbumObj
  external_urls : Option SpotifyExternalUrls
deriving DecidableEq, Repr

/--
The parsed JSON body of the Spotify currently-playing response.
-/
structure SpotifySong where
  timestamp : Option Int
  is_playing : Option Bool
  item : Option SpotifyItem
deriving DecidableEq, Repr

/--
The HTTP response of the Spotify currently-playing fetch: status and the
outcome of `response.json()` (`.error` models a JSON parse throw).
-/
structure SpotifyHttpResp where
  status : Int
  json : Except String SpotifySong
deriving DecidableEq, Repr

/--
The object literal of src/index.ts lines 169-180 that maps a parsed Spotify
song to an `ApiResponse`.  There is no try/catch around it, so a missing
field throws (`.error`), in source evaluation order:
`new Date(song.timestamp).toISOString()` throws on an invalid date when
`timestamp` is absent; `song.item.duration_ms` throws when `item` is
absent; `song.item.artists.map` throws when `artists` is absent;
`song.item.album.name` throws when `album` is absent;
`song.item.album.images[0].url` throws when `images` is absent or empty;
`song.item.external_urls.spotify` throws when `external_urls` is absent.
`Array.prototype.join` renders an absent artist name as the empty string.
-/
def mapSpotifySong (song : SpotifySong) : Except String ApiResponse :=
  match song.timestamp with
  | none => .error "RangeError: Invalid time value"
  | some ts =>
    match song.item with
    | none => .error "TypeError: cannot read duration of undefined"
    | some item =>
      match item.artists with
      | none => .error "TypeError: cannot read map of undefined"
      | some artists =>
        match item.album with
        | none => .error "TypeError: cannot read name of undefined"
        | some album =>
          match album.images with
          | none => .error "TypeError: cannot index undefined"
          | some [] => .error "TypeError: cannot read url of undefined"
          | some (img0 :: _) =>
            match item.external_urls with
            | none => .error "TypeError: cannot read spotify of undefined"
            | some ext =>
              .ok { success := true
                    source := some "Spotify"
                    timeStamp := .valid ts
                    duration := item.duration_ms
                    isPlaying := song.is_playing.getD false
                    title := item.name
                    artist := some (String.intercalate ", " (artists.map (fun nm => nm.getD "")))
                    album := album.name
                    albumImageUrl := img0
                    songUrl := ext.spotify }

/--
The `getNowPlaying` helper of src/index.ts lines 145-181: a 204 means
nothing is playing (success with epoch-zero timestamp), a non-ok status is
reported as a failure snapshot, and otherwise the body is parsed and mapped
with no exception handling (`.error` escapes this function).
`response.ok` is status in 200..299.
-/
def getNowPlaying (now : Int) (resp : SpotifyHttpResp) : Except String ApiResponse :=
  if resp.status = 204 then
    .ok { success := true, isPlaying := false, timeStamp := .valid 0 }
  else if ¬(200 ≤ resp.status ∧ resp.status ≤ 299) then
    .ok { success := false, isPlaying := false, timeStamp := .valid now
          error := some ("Failed to fetch from Spotify. Status: " ++ toString resp.status) }
  else
    match resp.json with
    | .error e => .error e
    | .ok song => mapSpotifySong song

/--
The `getSpotifyData` adapter of src/index.ts lines 111-117.  `tokenOutcome`
models `getAccessToken`: `.error` when its `fetch` or `response.json()`
throws (no try/catch, so the throw propagates), `.ok none` when
`data.access_token` is absent or falsy, `.ok (some t)` on success.
`nowPlayingOutcome` models the currently-playing `fetch`: `.error` when the
fetch itself throws.  The adapter has no exception handling of its own.
-/
def getSpotifyData (now : Int) (tokenOutcome : Except String (Option String))
    (nowPlayingOutcome : Except String SpotifyHttpResp) :
    Except String ApiResponse :=
  match tokenOutcome with
  | .error e => .error e
  | .ok none =>
    .ok { success := false, isPlaying := false, timeStamp := .valid now
          error := some "Could not get access token for Spotify." }
  | .ok (some _) =>
    match nowPlayingOutcome with
    | .error e => .error e
    | .ok resp => getNowPlaying now resp

/--
Whether a parsed Spotify 200 body has every field the mapping of lines
169-180 dereferences, i.e. exactly the condition under which
`mapSpotifySong` completes instead of throwing.
-/
def spotifySongComplete (song : SpotifySong) : Bool :=
  match song.timestamp with
  | none => false
  | some _ =>
    match song.item with
    | none => false
    | some item =>
      match item.artists with
      | none => false
      | some _ =>
        match item.album with
        | none => false
        | some album =>
          match album.images with
          | none => false
          | some [] => false
          | some (_ :: _) =>
            match item.external_urls with
            | none => false
            | some _ => true

/--
The upstream outcomes on the Spotify side that the adapter handles by
returning a snapshot: a thrown token fetch or parse, a thrown
currently-playing fetch, a malformed 2xx JSON body, and a 2xx body missing a
dereferenced field are unhandled (the adapter throws); everything else
(credential absent, 204, non-2xx status, complete 2xx body) is handled.
-/
def spotifyHandled (tokenOutcome : Except String (Option String))
    (nowPlayingOutcome : Except String SpotifyHttpResp) : Bool :=
  match tokenOutcome with
  | .error _ => false
  | .ok none => true
  | .ok (some _) =>
    match nowPlayingOutcome with
    | .error _ => false
    | .ok resp =>
      if resp.status = 204 then true
      else if ¬(200 ≤ resp.status ∧ resp.status ≤ 299) then true
      else
        match resp.json with
        | .error _ => false
        | .ok song => spotifySongComplete song

/--
Sample snapshot: a playing track whose duration is zero milliseconds.
-/
def snapPlaying0 : ApiResponse :=
  { success := true, isPlaying := true, timeStamp := .valid 10, duration := some 0 }

/--
Sample snapshot: a playing track with a five-minute duration.
-/
def snapPlaying300 : ApiResponse :=
  { success := true, isPlaying := true, timeStamp := .valid 10, duration := some 300000 }

/--
Sample snapshot: not playing, timestamp 5 ms after epoch.
-/
def snapIdle5 : ApiResponse :=
  { success := true, isPlaying := false, timeStamp := .valid 5 }

/--
Sample snapshot: not playing, timestamp 10 ms after epoch.
-/
def snapIdle10 : ApiResponse :=
  { success := true, isPlaying := false, timeStamp := .valid 10 }

/--
Sample snapshot: not playing, timestamp 5 ms before epoch.
-/
def snapIdleNeg : ApiResponse :=
  { success := true, isPlaying := false, timeStamp := .valid (-5) }

/--
Sample snapshot: not playing, with a non-empty timeStamp string that does
not parse as a date.
-/
def snapInvalidTime : ApiResponse :=
  { success := true, isPlaying := false, timeStamp := .invalid }

/--
Sample Apple artwork with placeholder width and height.
-/
def appleArtSample : AppleArtwork :=
  { url := some "https://img.example/\x7bw\x7dx\x7bh\x7dbb.jpg" }

/--
Sample Apple track attributes with the given duration and all fields the
adapter dereferences present.
-/
def appleAttrsSample (d : Option Int) : AppleAttributes :=
  { durationInMillis := d
    name := some "Love Is Everywhere"
    artistName := some "Magdalena Bay"
    albumName := some "Imaginal Disk"
    artwork := some appleArtSample
    url := some "https://music.example/song" }

/--
Sample Apple track with id X and the given duration.
-/
def appleSongSample (d : Option Int) : AppleSong :=
  { id := some "X", attributes := some (appleAttrsSample d) }

/--
Sample successful Apple HTTP response carrying the given track list.
-/
def appleRespSample (songs : List AppleSong) : AppleHttpResp :=
  { status := 200, hasBody := true, json := .ok { data := some songs } }

theorem jsGe_none_left (x : Option Int) : jsGe none x = false := by
  cases x <;> rfl

theorem jsGe_none_right (x : Option Int) : jsGe x none = false := by
  cases x <;> rfl

/--
Claim C10: for every pair of input snapshots, the winner the selection block
of the fetch handler returns is exactly one of the two inputs, field for
field; no field is modified, dropped or synthesized.
-/
theorem C10_winner_is_one_input (a b : ApiResponse) :
    resolve a b = a ∨ resolve a b = b := by
  unfold resolve
  by_cases h1 : a.isPlaying = true
  · simp [h1]
  · by_cases h2 : b.isPlaying = true
    · simp [h1, h2]
    · by_cases h3 : jsGe (jsGetTime a.timeStamp) (jsGetTime b.timeStamp) = true
      · simp [h1, h2, h3]
      · simp [h1, h2, h3]

/--
Claim C7: on a request with noCache=true the RESULT_CACHE entry is deleted,
the cache is never read, the body is recomputed from the two adapter
snapshots, and the response carries X-Cache-Status MISS.
-/
theorem C7_cache_bypass (cached : Option ApiResponse) (s a : ApiResponse) :
    (fetchHandler true cached s a).cacheDeleted = true ∧
    (fetchHandler true cached s a).cacheRead = false ∧
    (fetchHandler true cached s a).cacheStatus = "MISS" ∧
    (fetchHandler true cached s a).body = resolve s a :=
  ⟨rfl, rfl, rfl, rfl⟩

/--
Claim C6: a RESULT_CACHE write happens exactly when the request reaches the
selection step (bypass requested or cache miss) and the chosen snapshot has
success true; a chosen failure snapshot is never written, and the cache-hit
path never writes.
-/
theorem C6_cache_write_iff (noCache : Bool) (cached : Option ApiResponse)
    (s a : ApiResponse) :
    (fetchHandler noCache cached s a).cacheWrite.isSome =
      ((noCache || cached.isNone) && (resolve s a).success) := by
  cases noCache with
  | false =>
    cases cached with
    | none => by_cases h : (resolve s a).success = true <;> simp [fetchHandler, h]
    | some c => simp [fetchHandler]
  | true => by_cases h : (resolve s a).success = true <;> simp [fetchHandler, h]

/--
Claim C5 counterexample: with neither snapshot playing, a Spotify snapshot
whose timeStamp does not parse, and an Apple snapshot at a negative epoch
timestamp, the claim says Spotify wins (its unparsable timestamp counting as
0 and 0 being at least -5 under the tie-favouring comparison), but the code
compares NaN, every comparison with which is false, so Apple wins.
-/
theorem C5_counterexample :
    resolve snapInvalidTime snapIdleNeg = snapIdleNeg ∧
    snapInvalidTime ≠ snapIdleNeg :=
  ⟨rfl, by decide⟩

/--
Claim C5 amended: the selection returns A when A is playing, else B when B
is playing, else compares timestamps with a tie-favouring greater-or-equal,
where an absent timestamp counts as 0; but an unparsable timestamp on either
side makes the comparison NaN-false, so B is chosen whenever either
timestamp fails to parse.
-/
theorem C5_amended (a b : ApiResponse) :
    (a.isPlaying = true → resolve a b = a) ∧
    (a.isPlaying = false → b.isPlaying = true → resolve a b = b) ∧
    (a.isPlaying = false → b.isPlaying = false →
      (∀ ta tb : Int, jsGetTime a.timeStamp = some ta → jsGetTime b.timeStamp = some tb →
        resolve a b = if ta ≥ tb then a else b) ∧
      ((jsGetTime a.timeStamp = none ∨ jsGetTime b.timeStamp = none) →
        resolve a b = b)) := by
  refine ⟨?_, ?_, ?_⟩
  · intro h; simp [resolve, h]
  · intro h1 h2; simp [resolve, h1, h2]
  · intro h1 h2
    constructor
    · intro ta tb hta htb
      by_cases hge : ta ≥ tb
      · simp [resolve, h1, h2, jsGe, hta, htb, hge]
      · simp [resolve, h1, h2, jsGe, hta, htb, hge]
    · intro hcase
      rcases hcase with h | h
      · simp [resolve, h1, h2, h, jsGe_none_left]
      · simp [resolve, h1, h2, h, jsGe_none_right]

/--
Claim C5 witness: at two concrete idle snapshots with parsable timestamps 10
and 5, the amended selection rule applies and picks the first.
-/
theorem C5_witness :
    resolve snapIdle10 snapIdle5 = if (10 : Int) ≥ (5 : Int) then snapIdle10 else snapIdle5 :=
  ((C5_amended snapIdle10 snapIdle5).2.2 rfl rfl).1 10 5 rfl rfl

/--
Claim C4 counterexample: a chosen successful snapshot with durationMs = 0 is
cached with TTL 120 (JS truthiness sends a zero duration to the default),
not with min(floor(0 / 1000), 600) = 0 as the claim states.
-/
theorem C4_counterexample :
    (fetchHandler true none snapPlaying0 snapIdle5).cacheWrite = some (snapPlaying0, 120) ∧
    (120 : Int) ≠ min (Int.fdiv 0 1000) 600 :=
  ⟨rfl, by decide⟩

/--
Claim C4 amended: for every request reaching the selection step whose chosen
snapshot succeeds, the TTL written is min(floor(durationMs / 1000), 600)
when durationMs is present and nonzero, and 120 when durationMs is absent or
zero.
-/
theorem C4_amended (noCache : Bool) (cached : Option ApiResponse) (s a : ApiResponse)
    (hreach : noCache = true ∨ cached = none)
    (hsucc : (resolve s a).success = true) :
    ((resolve s a).duration = none →
      (fetchHandler noCache cached s a).cacheWrite = some (resolve s a, 120)) ∧
    ((resolve s a).duration = some 0 →
      (fetchHandler noCache cached s a).cacheWrite = some (resolve s a, 120)) ∧
    (∀ d : Int, (resolve s a).duration = some d → d ≠ 0 →
      (fetchHandler noCache cached s a).cacheWrite =
        some (resolve s a, min (Int.fdiv d 1000) 600)) := by
  have hw : (fetchHandler noCache cached s a).cacheWrite =
      some (resolve s a, computeTtl (resolve s a).duration) := by
    rcases hreach with h | h
    · subst h; simp [fetchHandler, hsucc]
    · subst h; cases noCache <;> simp [fetchHandler, hsucc]
  refine ⟨?_, ?_, ?_⟩
  · intro hd; rw [hw, hd]; simp [computeTtl]
  · intro hd; rw [hw, hd]; simp [computeTtl]
  · intro d hd hne; rw [hw, hd]; simp [computeTtl, hne]

/--
Claim C4 witness: at a concrete chosen snapshot with a five-minute duration
the amended rule yields TTL min(floor(300000 / 1000), 600) = 300.
-/
theorem C4_witness :
    (fetchHandler true none snapPlaying300 snapIdle5).cacheWrite =
      some (resolve snapPlaying300 snapIdle5, min (Int.fdiv 300000 1000) 600) :=
  (C4_amended true none snapPlaying300 snapIdle5 (Or.inl rfl) rfl).2.2 300000 rfl (by decide)

/--
Claim C1 (code evaluation at the failing input): on a repeat observation of
song X with duration 180000 ms whose marker was observed 60 s ago (more
recently than one track-duration ago), the code reports isPlaying false
(the claim and spec say true), keeping timestamp = marker.observedAt; and
on a repeat observation whose marker was observed 300 s ago (beyond one
track-duration), the code reports isPlaying true (the claim and spec say
false).  The two repeat-observation branches are inverted in the source.
-/
theorem C1_code_eval :
    (getAppleMusicData 1000000 (some "dev") (some "usr")
        (.ok (appleRespSample [appleSongSample (some 180000)]))
        (some { songId := some "X", cachedAt := 940000 })).1.isPlaying = false ∧
    (getAppleMusicData 1000000 (some "dev") (some "usr")
        (.ok (appleRespSample [appleSongSample (some 180000)]))
        (some { songId := some "X", cachedAt := 940000 })).1.timeStamp = .valid 940000 ∧
    (getAppleMusicData 1000000 (some "dev") (some "usr")
        (.ok (appleRespSample [appleSongSample (some 180000)]))
        (some { songId := some "X", cachedAt := 700000 })).1.isPlaying = true := by
  refine ⟨by decide, by decide, by decide⟩

theorem option_ne_none {α : Type} (o : Option α) (h : o ≠ none) : ∃ x, o = some x := by
  cases o with
  | none => exact absurd rfl h
  | some x => exact ⟨x, rfl⟩

theorem getAppleMusicData_ok (now : Int) (dv mv : String) (resp : AppleHttpResp)
    (cs : Option AppleCacheState) (r : ApiResponse) (w : Option AppleCacheState)
    (h : appleTryBody now resp cs = (.ok r, w)) :
    getAppleMusicData now (some dv) (some mv) (.ok resp) cs = (r, w) := by
  unfold getAppleMusicData
  rw [if_neg (by simp : ¬(some dv = none ∨ some mv = none))]
  show (match appleTryBody now resp cs with
        | (.ok r, w) => (r, w)
        | (.error _, w) =>
          ({ success := false, isPlaying := false, timeStamp := .valid now
             error := some "Failed to fetch from Apple Music. Is the User Token valid?" }, w)) =
      (r, w)
  rw [h]

theorem getAppleMusicData_err (now : Int) (dv mv : String) (resp : AppleHttpResp)
    (cs : Option AppleCacheState) (e : String) (w : Option AppleCacheState)
    (h : appleTryBody now resp cs = (.error e, w)) :
    getAppleMusicData now (some dv) (some mv) (.ok resp) cs =
      ({ success := false, isPlaying := false, timeStamp := .valid now
         error := some "Failed to fetch from Apple Music. Is the User Token valid?" }, w) := by
  unfold getAppleMusicData
  rw [if_neg (by simp : ¬(some dv = none ∨ some mv = none))]
  show (match appleTryBody now resp cs with
        | (.ok r, w) => (r, w)
        | (.error _, w) =>
          ({ success := false, isPlaying := false, timeStamp := .valid now
             error := some "Failed to fetch from Apple Music. Is the User Token valid?" }, w)) =
      _
  rw [h]

theorem appleTryBody_reaches (now : Int) (resp : AppleHttpResp)
    (cs : Option AppleCacheState) (song : AppleSong) (rest : List AppleSong)
    (attrs : AppleAttributes)
    (hst : resp.status ≤ 204) (hhb : resp.hasBody = true)
    (hj : resp.json = .ok { data := some (song :: rest) })
    (hattrs : song.attributes = some attrs) :
    appleTryBody now resp cs =
      (match cs with
       | some st =>
         if st.songId = song.id then
           if jsGt st.cachedAt (attrs.durationInMillis.map (fun d => now - d)) then
             (formatAppleSong song false st.cachedAt, none)
           else
             (formatAppleSong song true st.cachedAt, none)
         else
           (formatAppleSong song false now, some { songId := song.id, cachedAt := now })
       | none =>
         (formatAppleSong song false now, some { songId := song.id, cachedAt := now })) := by
  unfold appleTryBody
  have hg : ¬(resp.status > 204 ∨ resp.hasBody = false) := by
    push_neg
    exact ⟨by omega, by simp [hhb]⟩
  rw [if_neg hg, hj]
  simp only [hattrs]

theorem formatAppleSong_ok_fields (song : AppleSong) (isLive : Bool) (t : Int)
    (r : ApiResponse) (h : formatAppleSong song isLive t = .ok r) :
    r.isPlaying = isLive ∧ r.timeStamp = .valid t ∧ r.success = true := by
  obtain ⟨id, attrs⟩ := song
  cases attrs with
  | none => simp [formatAppleSong] at h
  | some a =>
    obtain ⟨dm, nm, an, al, aw, au⟩ := a
    cases aw with
    | none => simp [formatAppleSong] at h
    | some art =>
      obtain ⟨aurl⟩ := art
      cases aurl with
      | none => simp [formatAppleSong] at h
      | some ustr =>
        simp only [formatAppleSong, Except.ok.injEq] at h
        rw [← h]
        exact ⟨rfl, rfl, rfl⟩

/--
Claim C3 counterexample: a track whose durationInMillis is zero is not
treated as a fetch failure; with all other fields present the adapter
returns a snapshot with success = true, contrary to the claimed
empty-data guard for zero durations.
-/
theorem C3_counterexample :
    (getAppleMusicData 1000000 (some "dev") (some "usr")
        (.ok (appleRespSample [appleSongSample (some 0)])) none).1.success = true := by
  decide

/--
Claim C3 amended: when the Apple endpoint returns no tracks (the data array
is missing or empty) the adapter returns a failure snapshot, never a
success snapshot; but a zero duration triggers no guard: when the track
fields the adapter dereferences are present, a durationInMillis of zero
still yields a success snapshot.
-/
theorem C3_amended (now1 now2 : Int) (dt mu : Option String)
    (resp1 resp2 : AppleHttpResp) (cs1 cs2 : Option AppleCacheState)
    (song : AppleSong) (rest : List AppleSong) (attrs : AppleAttributes)
    (art : AppleArtwork) (u : String)
    (h1 : resp1.json = .ok { data := none } ∨ resp1.json = .ok { data := some [] })
    (hdt : dt ≠ none) (hmut : mu ≠ none)
    (hst : resp2.status ≤ 204) (hhb : resp2.hasBody = true)
    (hj : resp2.json = .ok { data := some (song :: rest) })
    (ha : song.attributes = some attrs)
    (_hd : attrs.durationInMillis = some 0)
    (hart : attrs.artwork = some art) (hu : art.url = some u) :
    (getAppleMusicData now1 dt mu (.ok resp1) cs1).1.success = false ∧
    (getAppleMusicData now2 dt mu (.ok resp2) cs2).1.success = true := by
  obtain ⟨dv, rfl⟩ := option_ne_none dt hdt
  obtain ⟨mv, rfl⟩ := option_ne_none mu hmut
  constructor
  · by_cases hg : resp1.status > 204 ∨ resp1.hasBody = false
    · have hbody : appleTryBody now1 resp1 cs1 =
          (.ok { success := false, isPlaying := false, timeStamp := .valid now1
                 error := some ("Failed to fetch from Apple Music. Status: " ++
                   toString resp1.status) }, none) := by
        unfold appleTryBody
        rw [if_pos hg]
      rw [getAppleMusicData_ok now1 dv mv resp1 cs1 _ none hbody]
    · rcases h1 with h | h
      · have hbody : appleTryBody now1 resp1 cs1 =
            (.error "TypeError: cannot index undefined", none) := by
          unfold appleTryBody
          rw [if_neg hg, h]
        rw [getAppleMusicData_err now1 dv mv resp1 cs1 _ none hbody]
      · have hbody : appleTryBody now1 resp1 cs1 =
            (.error "TypeError: cannot read id of undefined", none) := by
          unfold appleTryBody
          rw [if_neg hg, h]
        rw [getAppleMusicData_err now1 dv mv resp1 cs1 _ none hbody]
  · have hbody := appleTryBody_reaches now2 resp2 cs2 song rest attrs hst hhb hj ha
    have hfmt : ∀ (b : Bool) (t : Int),
        ∃ r, formatAppleSong song b t = .ok r ∧ r.success = true := by
      intro b t
      simp only [formatAppleSong, ha, hart, hu]
      exact ⟨_, rfl, rfl⟩
    cases cs2 with
    | none =>
      have h2 : appleTryBody now2 resp2 none =
          (formatAppleSong song false now2,
           some { songId := song.id, cachedAt := now2 }) := hbody
      obtain ⟨r, hr, hs⟩ := hfmt false now2
      rw [getAppleMusicData_ok now2 dv mv resp2 none r _ (by rw [h2, hr])]
      exact hs
    | some st =>
      have h2 : appleTryBody now2 resp2 (some st) =
          (if st.songId = song.id then
             if jsGt st.cachedAt (attrs.durationInMillis.map (fun d => now2 - d)) then
               (formatAppleSong song false st.cachedAt, none)
             else
               (formatAppleSong song true st.cachedAt, none)
           else
             (formatAppleSong song false now2,
              some { songId := song.id, cachedAt := now2 })) := hbody
      by_cases hid : st.songId = song.id
      · by_cases hgt : jsGt st.cachedAt (attrs.durationInMillis.map (fun d => now2 - d)) = true
        · obtain ⟨r, hr, hs⟩ := hfmt false st.cachedAt
          rw [getAppleMusicData_ok now2 dv mv resp2 (some st) r none
            (by rw [h2, if_pos hid, if_pos hgt, hr])]
          exact hs
        · obtain ⟨r, hr, hs⟩ := hfmt true st.cachedAt
          rw [getAppleMusicData_ok now2 dv mv resp2 (some st) r none
            (by rw [h2, if_pos hid, if_neg hgt, hr])]
          exact hs
      · obtain ⟨r, hr, hs⟩ := hfmt false now2
        rw [getAppleMusicData_ok now2 dv mv resp2 (some st) r _
          (by rw [h2, if_neg hid, hr])]
        exact hs

/--
Claim C3 witness: concrete instantiation of the amended claim, with an
empty data array for the failure half and a zero-duration track with all
fields present for the success half.
-/
theorem C3_witness :
    (getAppleMusicData 50 (some "dev") (some "usr")
        (.ok { status := 200, hasBody := true, json := .ok { data := some [] } })
        none).1.success = false ∧
    (getAppleMusicData 60 (some "dev") (some "usr")
        (.ok (appleRespSample [appleSongSample (some 0)])) none).1.success = true :=
  C3_amended 50 60 (some "dev") (some "usr")
    { status := 200, hasBody := true, json := .ok { data := some [] } }
    (appleRespSample [appleSongSample (some 0)]) none none
    (appleSongSample (some 0)) [] (appleAttrsSample (some 0)) appleArtSample
    "https://img.example/\x7bw\x7dx\x7bh\x7dbb.jpg"
    (Or.inr rfl) (by simp) (by simp) (by decide) rfl rfl rfl rfl rfl rfl

/--
Claim C8: on a call where no marker exists or the stored marker names a
different songId, and the upstream response carries a first track whose
attributes object is present, a new marker with that songId and
observedAt = now is written, and the returned snapshot has isPlaying =
false and timestamp = now.
-/
theorem C8_new_observation (now : Int) (dt mu : Option String) (resp : AppleHttpResp)
    (cs : Option AppleCacheState) (song : AppleSong) (rest : List AppleSong)
    (attrs : AppleAttributes)
    (hdt : dt ≠ none) (hmut : mu ≠ none)
    (hst : resp.status ≤ 204) (hhb : resp.hasBody = true)
    (hj : resp.json = .ok { data := some (song :: rest) })
    (hattrs : song.attributes = some attrs)
    (hnew : ∀ st, cs = some st → st.songId ≠ song.id) :
    (getAppleMusicData now dt mu (.ok resp) cs).2 =
      some { songId := song.id, cachedAt := now } ∧
    (getAppleMusicData now dt mu (.ok resp) cs).1.isPlaying = false ∧
    (getAppleMusicData now dt mu (.ok resp) cs).1.timeStamp = .valid now := by
  obtain ⟨dv, rfl⟩ := option_ne_none dt hdt
  obtain ⟨mv, rfl⟩ := option_ne_none mu hmut
  have hbody := appleTryBody_reaches now resp cs song rest attrs hst hhb hj hattrs
  have hb2 : appleTryBody now resp cs =
      (formatAppleSong song false now, some { songId := song.id, cachedAt := now }) := by
    cases cs with
    | none => exact hbody
    | some st =>
      have h2 : appleTryBody now resp (some st) =
          (if st.songId = song.id then
             if jsGt st.cachedAt (attrs.durationInMillis.map (fun d => now - d)) then
               (formatAppleSong song false st.cachedAt, none)
             else
               (formatAppleSong song true st.cachedAt, none)
           else
             (formatAppleSong song false now,
              some { songId := song.id, cachedAt := now })) := hbody
      rw [h2, if_neg (hnew st rfl)]
  cases hf : formatAppleSong song false now with
  | ok r =>
    have hfields := formatAppleSong_ok_fields song false now r hf
    rw [getAppleMusicData_ok now dv mv resp cs r _ (by rw [hb2, hf])]
    exact ⟨rfl, hfields.1, hfields.2.1⟩
  | error e =>
    rw [getAppleMusicData_err now dv mv resp cs e _ (by rw [hb2, hf])]
    exact ⟨rfl, rfl, rfl⟩

/--
Claim C8 witness: first-ever observation of song X (no marker stored) at
now = 1000 writes the marker for X at 1000 and reports isPlaying false with
timestamp 1000.
-/
theorem C8_witness :
    (getAppleMusicData 1000 (some "dev") (some "usr")
        (.ok (appleRespSample [appleSongSample (some 180000)])) none).2 =
      some { songId := some "X", cachedAt := 1000 } ∧
    (getAppleMusicData 1000 (some "dev") (some "usr")
        (.ok (appleRespSample [appleSongSample (some 180000)])) none).1.isPlaying = false ∧
    (getAppleMusicData 1000 (some "dev") (some "usr")
        (.ok (appleRespSample [appleSongSample (some 180000)])) none).1.timeStamp =
      .valid 1000 :=
  C8_new_observation 1000 (some "dev") (some "usr")
    (appleRespSample [appleSongSample (some 180000)]) none
    (appleSongSample (some 180000)) [] (appleAttrsSample (some 180000))
    (by simp) (by simp) (by decide) rfl rfl rfl (fun st h => nomatch h)

/--
Claim C9: on a repeat observation (the songId stored in the marker equals
the songId of the returned track) the marker is not written at all; both stored
fields stay exactly as they were.
-/
theorem C9_repeat_no_write (now : Int) (dt mu : Option String) (resp : AppleHttpResp)
    (cs : Option AppleCacheState) (song : AppleSong) (rest : List AppleSong)
    (attrs : AppleAttributes) (st : AppleCacheState)
    (hdt : dt ≠ none) (hmut : mu ≠ none)
    (hst : resp.status ≤ 204) (hhb : resp.hasBody = true)
    (hj : resp.json = .ok { data := some (song :: rest) })
    (hattrs : song.attributes = some attrs)
    (hcs : cs = some st) (hid : st.songId = song.id) :
    (getAppleMusicData now dt mu (.ok resp) cs).2 = none := by
  obtain ⟨dv, rfl⟩ := option_ne_none dt hdt
  obtain ⟨mv, rfl⟩ := option_ne_none mu hmut
  subst hcs
  have h2 : appleTryBody now resp (some st) =
      (if st.songId = song.id then
         if jsGt st.cachedAt (attrs.durationInMillis.map (fun d => now - d)) then
           (formatAppleSong song false st.cachedAt, none)
         else
           (formatAppleSong song true st.cachedAt, none)
       else
         (formatAppleSong song false now,
          some { songId := song.id, cachedAt := now })) :=
    appleTryBody_reaches now resp (some st) song rest attrs hst hhb hj hattrs
  by_cases hgt : jsGt st.cachedAt (attrs.durationInMillis.map (fun d => now - d)) = true
  · cases hf : formatAppleSong song false st.cachedAt with
    | ok r =>
      rw [getAppleMusicData_ok now dv mv resp (some st) r none
        (by rw [h2, if_pos hid, if_pos hgt, hf])]
    | error e =>
      rw [getAppleMusicData_err now dv mv resp (some st) e none
        (by rw [h2, if_pos hid, if_pos hgt, hf])]
  · cases hf : formatAppleSong song true st.cachedAt with
    | ok r =>
      rw [getAppleMusicData_ok now dv mv resp (some st) r none
        (by rw [h2, if_pos hid, if_neg hgt, hf])]
    | error e =>
      rw [getAppleMusicData_err now dv mv resp (some st) e none
        (by rw [h2, if_pos hid, if_neg hgt, hf])]

/--
Claim C9 witness: a repeat observation of song X with the marker stored at
500 writes nothing to the marker store.
-/
theorem C9_witness :
    (getAppleMusicData 1000 (some "dev") (some "usr")
        (.ok (appleRespSample [appleSongSample (some 180000)]))
        (some { songId := some "X", cachedAt := 500 })).2 = none :=
  C9_repeat_no_write 1000 (some "dev") (some "usr")
    (appleRespSample [appleSongSample (some 180000)])
    (some { songId := some "X", cachedAt := 500 })
    (appleSongSample (some 180000)) [] (appleAttrsSample (some 180000))
    { songId := some "X", cachedAt := 500 }
    (by simp) (by simp) (by decide) rfl rfl rfl rfl rfl

theorem mapSpotifySong_isOk (song : SpotifySong) :
    exceptOk (mapSpotifySong song) = spotifySongComplete song := by
  obtain ⟨ts, ip, item⟩ := song
  cases ts with
  | none => rfl
  | some t =>
    cases item with
    | none => rfl
    | some it =>
      obtain ⟨dm, nm, ar, al, eu⟩ := it
      cases ar with
      | none => rfl
      | some arts =>
        cases al with
        | none => rfl
        | some alb =>
          obtain ⟨aname, aimgs⟩ := alb
          cases aimgs with
          | none => rfl
          | some imgs =>
            cases imgs with
            | nil => rfl
            | cons i rest =>
              cases eu with
              | none => rfl
              | some e => rfl

theorem fetchTop_isOk (noCache : Bool) (cached : Option ApiResponse)
    (s : Except String ApiResponse) (a : ApiResponse) :
    exceptOk (fetchTop noCache cached s a) = ((!noCache && cached.isSome) || exceptOk s) := by
  cases noCache <;> cases cached <;> cases s <;> rfl

/--
Claim C2 counterexample: a 200 Spotify response whose body is not valid
JSON makes `response.json()` throw inside `getNowPlaying`; the Spotify
adapter has no exception handling, so the throw escapes the adapter
boundary, and on a cache-miss request it escapes the whole handler: no
HTTP 200 body with a success flag is produced.
-/
theorem C2_counterexample :
    getSpotifyData 5 (.ok (some "tok"))
        (.ok { status := 200, json := .error "SyntaxError: Unexpected end of JSON input" }) =
      .error "SyntaxError: Unexpected end of JSON input" ∧
    fetchTop false none
        (getSpotifyData 5 (.ok (some "tok"))
          (.ok { status := 200, json := .error "SyntaxError: Unexpected end of JSON input" }))
        snapIdle5 =
      .error "SyntaxError: Unexpected end of JSON input" :=
  ⟨rfl, rfl⟩

/--
Claim C2 amended: the Apple Music adapter returns a snapshot for every
upstream outcome (its whole body is inside try/catch), but the Spotify
adapter completes without throwing exactly when the upstream outcome is
handled: credential absent, a 204, a non-2xx status, or a 2xx body that
parses and contains every dereferenced field; on a thrown token exchange,
a thrown fetch, a malformed 2xx JSON body, or a 2xx body missing a
required field the adapter throws, and the handler produces a 200 body
only on a cache hit or when the Spotify adapter completed.
-/
theorem C2_amended (now : Int) (tok : Except String (Option String))
    (np : Except String SpotifyHttpResp) (noCache : Bool) (cached : Option ApiResponse)
    (nowA : Int) (dtok mtok : Option String) (fo : Except String AppleHttpResp)
    (cs : Option AppleCacheState) :
    exceptOk (getSpotifyData now tok np) = spotifyHandled tok np ∧
    exceptOk (fetchTop noCache cached (getSpotifyData now tok np)
        (getAppleMusicData nowA dtok mtok fo cs).1) =
      ((!noCache && cached.isSome) || spotifyHandled tok np) := by
  have h1 : exceptOk (getSpotifyData now tok np) = spotifyHandled tok np := by
    cases tok with
    | error e => rfl
    | ok t =>
      cases t with
      | none => rfl
      | some tkn =>
        cases np with
        | error e => rfl
        | ok resp =>
          show exceptOk (getNowPlaying now resp) =
            (if resp.status = 204 then true
             else if ¬(200 ≤ resp.status ∧ resp.status ≤ 299) then true
             else
               match resp.json with
               | .error _ => false
               | .ok song => spotifySongComplete song)
          unfold getNowPlaying
          by_cases h204 : resp.status = 204
          · rw [if_pos h204, if_pos h204]
            rfl
          · rw [if_neg h204, if_neg h204]
            by_cases hok : 200 ≤ resp.status ∧ resp.status ≤ 299
            · rw [if_neg (by simp [hok]), if_neg (by simp [hok])]
              cases resp.json with
              | error e => rfl
              | ok song => exact mapSpotifySong_isOk song
            · rw [if_pos (by simp [hok]), if_pos (by simp [hok])]
              rfl
  exact ⟨h1, by rw [fetchTop_isOk, h1]⟩
